import Mathlib

/-!
Verification of the wallet-session, transaction-coordination, record-view and
diagnostics logic of the fluent-notes-dapp client, as a shallow embedding of
src/components/ConnectWallet.jsx, src/components/NoteEditor.jsx and
src/components/NotesList.jsx (which also contains the App component and the
ContractDiagnostics component).

External effects (the wallet provider, the contract, signature recovery) are
modelled as environment records supplying the outcome of each awaited call;
the embedded functions reproduce the control flow of the source handlers.
-/

namespace FluentNotes

/-- Leading-match test on character lists: `pat` starts the second list. -/
def charsStart : List Char → List Char → Bool
  | [], _ => true
  | _ :: _, [] => false
  | p :: ps, c :: cs => p == c && charsStart ps cs

/-- Substring occurrence on character lists: `pat` occurs in the list. -/
def jsIncludesChars (pat : List Char) : List Char → Bool
  | [] => pat.isEmpty
  | c :: rest => charsStart pat (c :: rest) || jsIncludesChars pat rest

/-- JavaScript `s.includes(pat)`: true when `pat` occurs as a substring of
`s` (case-sensitive). -/
def jsIncludes (s pat : String) : Bool :=
  jsIncludesChars pat.data s.data

/-- JavaScript `s.toLowerCase()` on the ASCII account addresses the source
compares: lowercase each character. -/
def jsToLower (s : String) : String :=
  String.mk (s.data.map Char.toLower)

/-- Drop leading whitespace characters. -/
def dropLeadWs : List Char → List Char
  | [] => []
  | c :: cs => if c.isWhitespace then dropLeadWs cs else c :: cs

/-- JavaScript `s.trim()`: remove leading and trailing whitespace. -/
def jsTrim (s : String) : String :=
  String.mk (dropLeadWs (dropLeadWs s.data.reverse).reverse)

/-! ## WalletSession: ConnectWallet.jsx -/

/-- The authenticated session installed by `onConnected(address, provider)`:
a non-empty account string bound to the provider. -/
structure Session where
  account : String
  deriving Repr, DecidableEq

/-- Environment of one `connectWallet` / `handleAccountsChanged` attempt:
the outcome of each awaited provider call.
`hasEthereum` models `window.ethereum` presence; `switchOk` the result of
`switchToFluentNetwork()`; `accountsResult` the `eth_requestAccounts` reply
(`none` means the request threw); `signOutcome` the `signer.signMessage`
reply (`none` means it threw, e.g. user rejection); `recovered` is
`ethers.utils.verifyMessage` applied to the challenge message and the
returned signature. -/
structure ConnectEnv where
  hasEthereum : Bool
  switchOk : Bool
  accountsResult : Option (List String)
  signOutcome : Option String
  recovered : String → String

/-- `requestSignature(provider, address)` (ConnectWallet.jsx lines 104-137):
signs the challenge message, recovers the signer locally, and returns true
only when the recovered address equals the candidate address
case-insensitively; any throw (including user rejection) returns false. -/
def requestSignature (env : ConnectEnv) (address : String) : Bool :=
  match env.signOutcome with
  | none => false
  | some sig => jsToLower (env.recovered sig) == jsToLower address

/-- `connectWallet()` (ConnectWallet.jsx lines 142-185): aborts with no
session when no provider is detected, when the network switch fails, when
`eth_requestAccounts` throws or returns no account; otherwise installs a
session for the first account exactly when `requestSignature` returns true. -/
def connectWallet (env : ConnectEnv) : Option Session :=
  if env.hasEthereum then
    if env.switchOk then
      match env.accountsResult with
      | none => none
      | some [] => none
      | some (address :: _) =>
        if requestSignature env address then some { account := address } else none
    else none
  else none

/-- Observable steps of the `accountsChanged` handler, in execution order. -/
inductive AuthEvent where
  | clearSession
  | verifyStart (address : String)
  | sessionInstalled (address : String)
  deriving Repr, DecidableEq

/-- `handleAccountsChanged(accounts)` (ConnectWallet.jsx lines 26-55) as the
ordered trace of its observable steps: clearing the account always runs first;
when at least one account is reported and the user has not manually
disconnected, `requestSignature` runs for the new first account, and
`setAccount(address)` plus `onConnected` run only when it returns true. -/
def handleAccountsChanged (manuallyDisconnected : Bool) (env : ConnectEnv)
    (accounts : List String) : List AuthEvent :=
  AuthEvent.clearSession ::
    match accounts with
    | [] => []
    | address :: _ =>
      if manuallyDisconnected then []
      else
        AuthEvent.verifyStart address ::
          (if requestSignature env address then [AuthEvent.sessionInstalled address] else [])

/-- Component-level wallet state: the `account` and `manuallyDisconnected`
React state of ConnectWallet.jsx. -/
structure WalletState where
  account : String
  manuallyDisconnected : Bool
  deriving Repr, DecidableEq

/-- Wallet lifecycle events: a `connectWallet()` call that completed with a
verified signature, `disconnectWallet()`, and an external `accountsChanged`
notification (with whether signature verification for the new first account
would succeed). -/
inductive WalletEvent where
  | connectOk (address : String)
  | disconnect
  | accountsChanged (accounts : List String) (verified : Bool)
  deriving Repr, DecidableEq

/-- One step of the wallet component. The second component records whether a
re-authentication (challenge/signature for a new account) was attempted
during the step. `connectOk` sets the account and leaves
`manuallyDisconnected` unchanged (connectWallet never resets it);
`disconnect` clears the account and sets the flag (lines 190-197); an
`accountsChanged` notification is ignored entirely when
`manuallyDisconnected` is set, because the effect at lines 20-64 only
registers the listener when the flag is false and the handler re-checks it. -/
def walletStep (s : WalletState) : WalletEvent → WalletState × Bool
  | WalletEvent.connectOk address => ({ s with account := address }, false)
  | WalletEvent.disconnect => ({ account := "", manuallyDisconnected := true }, false)
  | WalletEvent.accountsChanged accounts verified =>
    if s.manuallyDisconnected then (s, false)
    else
      match accounts with
      | [] => ({ s with account := "" }, false)
      | address :: _ =>
        ({ s with account := if verified then address else "" }, true)

/-- Run a sequence of wallet events from a state. -/
def walletRun (s : WalletState) (events : List WalletEvent) : WalletState :=
  events.foldl (fun t e => (walletStep t e).1) s

/-! ## TransactionCoordinator and RecordViewStateMachine: NoteEditor.jsx, App -/

/-- One entry of `receipt.events` as inspected by NoteEditor.jsx lines
188-199. `eventName` is `event.event`; `topic0` is `event.topics?.[0]`;
`argsNoteId` is `event.args?.noteId`. In ethers v5 an event argument of
solidity type uint256 is a BigNumber object, which is truthy even when it
represents zero, so presence of the property is modelled as `Option.isSome`. -/
structure ReceiptEvent where
  eventName : Option String
  topic0 : Option String
  argsNoteId : Option Int
  deriving Repr, DecidableEq

/-- A confirmation receipt returned by `tx.wait()`. -/
structure Receipt where
  status : Nat
  events : List ReceiptEvent
  transactionHash : String
  deriving Repr, DecidableEq

/-- A thrown JavaScript error as the catch blocks of `handleSubmit` inspect
it: `message` is `err.message`, `errorMessage` is `err.error?.message`,
`receiptStatus` is `err.receipt?.status`, and `txHash` is
`err.receipt?.transactionHash` or `err.transaction?.hash`. -/
structure JsError where
  message : Option String
  errorMessage : Option String
  receiptStatus : Option Nat
  txHash : Option String
  deriving Repr, DecidableEq

/-- Environment of one `handleSubmit` run: `addressValid` is
`ethers.utils.isAddress(contractAddress)`; `signerValid` is
`signer._isSigner`; `dispatch` is the `contract.createNote` /
`contract.updateNote` call returning `tx.hash`; `wait` is the first
`tx.wait()` (line 173) and `wait2` the second one (line 184, used only for
event extraction). -/
structure SubmitEnv where
  addressValid : Bool
  signerValid : Bool
  dispatch : Except JsError String
  wait : Except JsError Receipt
  wait2 : Except JsError Receipt
  deriving Repr

/-- The NoteEditor form state and props visible to `handleSubmit`. -/
structure Form where
  readOnly : Bool
  title : String
  content : String
  isNewNote : Bool
  noteId : Option Int
  hasProvider : Bool
  hasAccount : Bool
  hasContractAddress : Bool
  deriving Repr, DecidableEq

/-- Outcome of one `handleSubmit` run: `error` / `success` are the messages
set by `setError` / `setSuccess`; `onSavedCall = some savedNoteId` records
that `onSaved(savedNoteId)` was invoked; `dispatched` records that a
mutating contract call was made; `formAfter` is the form state afterwards
(`handleSubmit` never writes `title`, `content` or `isNewNote`). -/
structure SubmitResult where
  error : Option String
  success : Option String
  onSavedCall : Option (Option Int)
  dispatched : Bool
  formAfter : Form
  deriving Repr, DecidableEq

/-- The rewrapping of the inner catch (NoteEditor.jsx lines 214-229) for an
error whose `err.error.message` is absent or empty: the branches at lines
220-227 on `innerErr.message`. -/
def innerCatchMsg (e : JsError) : JsError :=
  match e.message with
  | some m =>
    if m = "" then e
    else if jsIncludes m "user rejected" then
      { message := some "Transaction was rejected in your wallet.",
        errorMessage := none, receiptStatus := none, txHash := none }
    else if jsIncludes m "note does not exist" then
      { message := some "Note does not exist or you don\u0027t have permission to edit it.",
        errorMessage := none, receiptStatus := none, txHash := none }
    else if jsIncludes m "registered" then
      { message := some "Your wallet isn\u0027t correctly registered with the contract.",
        errorMessage := none, receiptStatus := none, txHash := none }
    else e
  | none => e

/-- The inner catch (NoteEditor.jsx lines 214-229): when
`innerErr.error && innerErr.error.message` is truthy the nested message is
rethrown as a fresh `Error` (dropping receipt and nested error); otherwise
the message-pattern rewraps apply; otherwise the error is rethrown as-is. -/
def innerCatch (e : JsError) : JsError :=
  match e.errorMessage with
  | some m =>
    if m = "" then innerCatchMsg e
    else { message := some m, errorMessage := none, receiptStatus := none, txHash := none }
  | none => innerCatchMsg e

/-- The trailing fix-suggestion text appended to every failure message
(NoteEditor.jsx lines 278-281). -/
def fixSuffix : String :=
  "\n\nTo fix this issue:" ++
  "\n1. Check contract addresses in src/contracts/addresses.js" ++
  "\n2. Make sure both Solidity and Rust contracts are properly deployed" ++
  "\n3. Verify that your wallet has enough ETH for transaction fees"

/-- The zero-receipt-status branch of the outer catch (NoteEditor.jsx lines
250-259), with the transaction hash appended when one is available. -/
def zeroStatusCore (txHash : Option String) : String :=
  let msg := "Transaction was sent to the blockchain but failed during execution. This is likely due to a problem with the encryption contract setup. Check encryption contract address in src/contracts/addresses.js file."
  match txHash with
  | some h => if h = "" then msg else msg ++ "\n\nTransaction Hash: " ++ h
  | none => msg

/-- The outer catch (NoteEditor.jsx lines 230-287): builds the single
user-facing failure message. Zero receipt status is checked first; then the
message patterns in source order; then the raw message; then the unknown
fallback. -/
def outerCatch (e : JsError) : String :=
  let core :=
    if e.receiptStatus = some 0 then
      zeroStatusCore e.txHash
    else
      match e.message with
      | some m =>
        if m = "" then "Unknown error occurred. Check browser console for details."
        else if jsIncludes m "execution reverted" then
          "Transaction was rejected by the smart contract. There may be an issue with the encryption contract."
        else if jsIncludes m "UNPREDICTABLE_GAS_LIMIT" then
          "Gas estimation failed. The contract or function may not exist at the specified address."
        else if jsIncludes m "insufficient funds" then
          "Your wallet doesn\u0027t have enough ETH to pay for this transaction."
        else if jsIncludes m "contract not responding" then
          "The encryption contract is not responding. Contract addresses may be incorrect."
        else if jsIncludes m "contract address is invalid" then
          "One of the contract addresses is in an invalid format. Please check configuration."
        else m
      | none => "Unknown error occurred. Check browser console for details."
  "Failed to save note. " ++ core ++ fixSuffix

/-- Classification of an error thrown inside the inner try (dispatch or
confirmation): the inner catch rewraps it, the outer catch classifies it. -/
def classifySave (e : JsError) : String :=
  outerCatch (innerCatch e)

/-- Whether a save error carries the user-rejection signal
(`message.includes("user rejected")`). -/
def rejectionSignal (e : JsError) : Bool :=
  match e.message with
  | some m => jsIncludes m "user rejected"
  | none => false

/-- Whether `err.error?.message` is truthy. -/
def nestedTruthy (e : JsError) : Bool :=
  match e.errorMessage with
  | some m => m != ""
  | none => false

/-- Whether the message of the error matches none of the inner-catch rewrap
patterns, so that the inner catch rethrows it unchanged (receipt intact). -/
def passesInner (e : JsError) : Bool :=
  match e.message with
  | some m =>
    !jsIncludes m "user rejected" && !jsIncludes m "note does not exist" &&
      !jsIncludes m "registered"
  | none => true

/-- The event test at NoteEditor.jsx lines 190-193:
the event name equals "NoteCreated", or topic 0 contains "NoteCreated". -/
def isNoteCreatedEvent (ev : ReceiptEvent) : Bool :=
  ev.eventName == some "NoteCreated" ||
    (match ev.topic0 with
     | some t => jsIncludes t "NoteCreated"
     | none => false)

/-- The best-effort id recovery of NoteEditor.jsx lines 180-204:
`savedNoteId` starts as `null` for a new note (the prop `noteId` otherwise);
for a new note with a truthy `tx.hash`, the second `tx.wait()` receipt is
searched for a NoteCreated event carrying a truthy `args.noteId`
(a BigNumber, truthy even at zero); any failure leaves the initial value. -/
def extractSavedNoteId (f : Form) (env : SubmitEnv) (txHash : String) : Option Int :=
  let base : Option Int := if f.isNewNote then none else f.noteId
  if f.isNewNote && txHash != "" then
    match env.wait2 with
    | Except.error _ => base
    | Except.ok receipt =>
      if receipt.events.length > 0 then
        match receipt.events.find? isNoteCreatedEvent with
        | some ev =>
          match ev.argsNoteId with
          | some n => some n
          | none => base
        | none => base
      else base
  else base

/-- `handleSubmit` (NoteEditor.jsx lines 93-288). Control flow in source
order: the read-only early return; the blank-title validation; the missing
provider/account/contract-address check; the invalid-address and
missing-signer throws (caught by the outer catch directly); the dispatch and
the first `tx.wait()` (whose errors go through the inner catch, then the
outer catch); on confirmed success, the success message, best-effort id
extraction and the `onSaved(savedNoteId)` callback. -/
def handleSubmit (f : Form) (env : SubmitEnv) : SubmitResult :=
  if f.readOnly then
    { error := none, success := none, onSavedCall := none, dispatched := false, formAfter := f }
  else if jsTrim f.title = "" then
    { error := some "Please enter a title for your note", success := none,
      onSavedCall := none, dispatched := false, formAfter := f }
  else if !(f.hasProvider && f.hasAccount && f.hasContractAddress) then
    { error := some "Please connect your wallet first", success := none,
      onSavedCall := none, dispatched := false, formAfter := f }
  else if !env.addressValid then
    { error := some (outerCatch
        { message := some "Contract address is invalid. Please check your configuration.",
          errorMessage := none, receiptStatus := none, txHash := none }),
      success := none, onSavedCall := none, dispatched := false, formAfter := f }
  else if !env.signerValid then
    { error := some (outerCatch
        { message := some "No valid signer available. Please reconnect your wallet.",
          errorMessage := none, receiptStatus := none, txHash := none }),
      success := none, onSavedCall := none, dispatched := false, formAfter := f }
  else
    match env.dispatch with
    | Except.error e =>
      { error := some (classifySave e), success := none,
        onSavedCall := none, dispatched := true, formAfter := f }
    | Except.ok txHash =>
      match env.wait with
      | Except.error e =>
        { error := some (classifySave e), success := none,
          onSavedCall := none, dispatched := true, formAfter := f }
      | Except.ok _ =>
        { error := none,
          success := some (if f.isNewNote then "Note created successfully!"
                           else "Note updated successfully!"),
          onSavedCall := some (extractSavedNoteId f env txHash),
          dispatched := true, formAfter := f }

/-- The App-level note view state: `selectedNoteId` and `isEditing` of the
`noteState` record in the App component. -/
structure NoteState where
  selectedNoteId : Option Int
  isEditing : Bool
  deriving Repr, DecidableEq

/-- The four record-view modes as rendered by `renderMainContent`. -/
inductive ViewState where
  | browsing
  | viewing (id : Int)
  | creating
  | editing (id : Int)
  deriving Repr, DecidableEq

/-- The view mode determined by the App state: editing with no selection is
creation, editing with a selection edits it, a selection without editing is
viewed, otherwise the unselected browse screen shows. -/
def viewStateOf (s : NoteState) : ViewState :=
  if s.isEditing then
    match s.selectedNoteId with
    | some n => ViewState.editing n
    | none => ViewState.creating
  else
    match s.selectedNoteId with
    | some n => ViewState.viewing n
    | none => ViewState.browsing

/-- `handleNoteSaved(noteId)` (App, NotesList.jsx lines 813-846):
`selectedNoteId: noteId || prev.selectedNoteId` with JavaScript truthiness
(`null` and `0` are falsy), and `isEditing: false`. -/
def handleNoteSaved (savedId : Option Int) (s : NoteState) : NoteState :=
  { selectedNoteId :=
      match savedId with
      | some n => if n = 0 then s.selectedNoteId else some n
      | none => s.selectedNoteId,
    isEditing := false }

/-- The App state after a `handleSubmit` run: the App note state changes
only through the `onSaved` callback, which invokes `handleNoteSaved`. -/
def appAfterSubmit (r : SubmitResult) (s : NoteState) : NoteState :=
  match r.onSavedCall with
  | some savedId => handleNoteSaved savedId s
  | none => s

/-! ## RecordList fetch and ordering: NotesList.jsx -/

/-- One formatted note summary of the cached list. -/
structure Note where
  id : Int
  title : String
  timestamp : Int
  deriving Repr, DecidableEq

/-- The parallel arrays returned by `contract.getNotesList()`. -/
structure FetchedLists where
  ids : List Int
  titles : List String
  timestamps : List Int
  deriving Repr, DecidableEq

/-- The formatting step of `fetchNotes` (NotesList.jsx lines 63-68):
`ids.map((id, index) => ...)` with `titles[index] || "Untitled Note"`
(undefined and the empty string are falsy). The arrays are parallel and of
equal length per the contract ABI; a missing timestamp is defaulted. -/
def formatNotes (d : FetchedLists) : List Note :=
  d.ids.enum.map fun p =>
    { id := p.2,
      title :=
        match d.titles.get? p.1 with
        | some t => if t = "" then "Untitled Note" else t
        | none => "Untitled Note",
      timestamp := (d.timestamps.get? p.1).getD 0 }

/-- The ordering used by `formattedNotes.sort((a, b) => b.timestamp - a.timestamp)`:
`a` may precede `b` exactly when `a.timestamp` is at least `b.timestamp`. -/
def noteDescTs (a b : Note) : Prop := b.timestamp ≤ a.timestamp

instance : DecidableRel noteDescTs := fun a b =>
  inferInstanceAs (Decidable (b.timestamp ≤ a.timestamp))

instance : IsTotal Note noteDescTs :=
  ⟨fun a b => (Int.le_total b.timestamp a.timestamp)⟩

instance : IsTrans Note noteDescTs :=
  ⟨fun _ _ _ hab hbc => le_trans hbc hab⟩

/-- `fetchNotes` (NotesList.jsx lines 35-83) after a successful
`getNotesList` call: format, then sort by timestamp descending.
`Array.prototype.sort` is stable (ECMAScript 2019), and a stable sort by a
total preorder is unique, so it is embedded as the stable `insertionSort`
with the `noteDescTs` relation. -/
def fetchNotesSorted (d : FetchedLists) : List Note :=
  List.insertionSort noteDescTs (formatNotes d)

/-- The ordering the specification claims for the cached list: strictly
descending timestamp, ties broken by id descending. -/
def claimTieOrder (a b : Note) : Prop :=
  b.timestamp < a.timestamp ∨ (b.timestamp = a.timestamp ∧ b.id < a.id)

instance : DecidableRel claimTieOrder := fun a b =>
  inferInstanceAs (Decidable (b.timestamp < a.timestamp ∨
    (b.timestamp = a.timestamp ∧ b.id < a.id)))

/-! ## DiagnosticsProbe: ContractDiagnostics in NotesList.jsx -/

/-- One result slot of the diagnostics run. -/
structure CheckResult where
  valid : Bool
  error : Option String
  deriving Repr, DecidableEq

/-- The three result slots of `runDiagnostics`. -/
structure DiagResults where
  contract : CheckResult
  noteCreation : CheckResult
  encryption : CheckResult
  deriving Repr, DecidableEq

/-- Environment of one diagnostics run: `addrValid` is the
`ethers.utils.isAddress` check; `connectOk` is whether `getSigner` and the
contract construction succeed (with `connectError` the thrown message
otherwise); the three calls are `getEncryptionContractAddress`,
`encryptNote("Test content")` and `getNoteCount`. -/
structure DiagEnv where
  addrValid : Bool
  connectOk : Bool
  connectError : String
  viewCall : Except String String
  encryptCall : Except String String
  countCall : Except String Unit

/-- `runDiagnostics` (NotesList.jsx lines 284-377): the address format
check may record an error on the contract slot; when the signer and
contract construction succeed, the trivial view call, the encryption
dry-run and the count read each run inside their own try/catch and fill
only their own slot. -/
def runDiagnostics (env : DiagEnv) : DiagResults :=
  let base : CheckResult := { valid := false, error := none }
  let contract0 : CheckResult :=
    if env.addrValid then base
    else { valid := false, error := some "Invalid contract address format" }
  if env.connectOk then
    let contract1 :=
      match env.viewCall with
      | Except.ok _ => { contract0 with valid := true }
      | Except.error m =>
        { contract0 with error := some ("Contract exists but view function failed: " ++ m) }
    let encryption :=
      match env.encryptCall with
      | Except.ok _ => { valid := true, error := none }
      | Except.error m =>
        { valid := false, error := some ("Failed to encrypt test data: " ++ m) }
    let noteCreation :=
      match env.countCall with
      | Except.ok _ => { valid := true, error := none }
      | Except.error m =>
        { valid := false, error := some ("Failed to check note count: " ++ m) }
    { contract := contract1, noteCreation := noteCreation, encryption := encryption }
  else
    { contract :=
        { contract0 with error := some ("Failed to connect to contract: " ++ env.connectError) },
      noteCreation := base, encryption := base }

/-! ## Theorems -/

/-- Claim C1: for every completed `connectWallet` attempt, a Session is
installed only if the address recovered from the signature over the
challenge message equals, case-insensitively, the candidate account that
initiated the challenge; if the recovered address differs or signing fails,
no Session is created. -/
theorem connect_session_has_verified_signer (env : ConnectEnv) (s : Session)
    (h : connectWallet env = some s) :
    ∃ sig, env.signOutcome = some sig ∧
      jsToLower (env.recovered sig) = jsToLower s.account := by
  unfold connectWallet at h
  split at h
  · split at h
    · split at h
      · exact Option.noConfusion h
      · exact Option.noConfusion h
      · rename_i address tail hacc
        split at h
        · rename_i hreq
          injection h with h'
          subst h'
          unfold requestSignature at hreq
          split at hreq
          · exact Bool.noConfusion hreq
          · rename_i sig hsig
            exact ⟨sig, hsig, eq_of_beq hreq⟩
        · exact Option.noConfusion h
    · exact Option.noConfusion h
  · exact Option.noConfusion h

/-- Witness for C1 at a concrete environment whose recovered address
matches the candidate account up to case. -/
theorem connect_session_has_verified_signer_witness :
    ∃ sig,
      (ConnectEnv.mk true true (some ["0xAb"]) (some "sig") (fun _ => "0xaB")).signOutcome
        = some sig ∧
      jsToLower ((ConnectEnv.mk true true (some ["0xAb"]) (some "sig") (fun _ => "0xaB")).recovered sig)
        = jsToLower (Session.mk "0xAb").account :=
  connect_session_has_verified_signer
    (ConnectEnv.mk true true (some ["0xAb"]) (some "sig") (fun _ => "0xaB"))
    (Session.mk "0xAb") (by decide)

/-- Claim C2: on every external account-change notification, the handler
clears the current session first, before any signature verification begins,
and a session is installed for an account only when that account is the
newly reported first account, the user had not manually disconnected, and
its signature verification succeeded. -/
theorem account_change_clears_before_verified_install (md : Bool)
    (env : ConnectEnv) (accounts : List String) :
    (handleAccountsChanged md env accounts).head? = some AuthEvent.clearSession ∧
    ∀ address,
      AuthEvent.sessionInstalled address ∈ handleAccountsChanged md env accounts →
        md = false ∧ accounts.head? = some address ∧
          requestSignature env address = true := by
  refine ⟨rfl, fun address hmem => ?_⟩
  unfold handleAccountsChanged at hmem
  match accounts with
  | [] => simp at hmem
  | a :: rest =>
    by_cases hmd : md
    · simp [hmd] at hmem
    · by_cases hv : requestSignature env a
      · simp [hmd, hv] at hmem
        simp [hmd, hmem, hv]
      · simp [hmd, hv] at hmem

/-- Witness for C2 at a concrete notification whose verification succeeds. -/
theorem account_change_clears_before_verified_install_witness :
    (handleAccountsChanged false
        (ConnectEnv.mk true true none (some "sig") (fun _ => "0xb")) ["0xb"]).head?
      = some AuthEvent.clearSession ∧
    (false = false ∧ (["0xb"] : List String).head? = some "0xb" ∧
      requestSignature (ConnectEnv.mk true true none (some "sig") (fun _ => "0xb")) "0xb"
        = true) :=
  ⟨(account_change_clears_before_verified_install false
      (ConnectEnv.mk true true none (some "sig") (fun _ => "0xb")) ["0xb"]).1,
   (account_change_clears_before_verified_install false
      (ConnectEnv.mk true true none (some "sig") (fun _ => "0xb")) ["0xb"]).2
     "0xb" (by decide)⟩

/-- Claim C3 fails on the code: `connectWallet` never resets the
`manuallyDisconnected` flag, so the suppression does not end at the next
explicit connect. Concretely, after a disconnect followed by a successful
connect as "0xb", an external account-change notification for "0xc" with a
verifiable signature attempts no re-authentication at all and leaves the
session bound to "0xb", where the claim predicts a re-authentication for
"0xc". -/
theorem disconnect_suppression_outlives_reconnect :
    (walletStep
      (walletRun { account := "0xa", manuallyDisconnected := false }
        [WalletEvent.disconnect, WalletEvent.connectOk "0xb"])
      (WalletEvent.accountsChanged ["0xc"] true)).2 = false ∧
    (walletStep
      (walletRun { account := "0xa", manuallyDisconnected := false }
        [WalletEvent.disconnect, WalletEvent.connectOk "0xb"])
      (WalletEvent.accountsChanged ["0xc"] true)).1
      = { account := "0xb", manuallyDisconnected := true } := by
  decide

/-- Once the manually-disconnected flag is set it survives every later
wallet event. -/
theorem walletRun_keeps_disconnected_flag (events : List WalletEvent) :
    ∀ s : WalletState, s.manuallyDisconnected = true →
      (walletRun s events).manuallyDisconnected = true := by
  induction events with
  | nil => exact fun s h => h
  | cons e rest ih =>
    intro s h
    have hstep : ((walletStep s e).1).manuallyDisconnected = true := by
      cases e with
      | connectOk a => exact h
      | disconnect => rfl
      | accountsChanged accs v => simp [walletStep, h]
    simpa [walletRun] using ih _ hstep

/-- Claim C3 amended: `disconnectWallet` clears the session and sets the
sticky manually-disconnected flag; the flag is never reset afterwards (not
even by a subsequent successful `connectWallet`), so while it is set every
external account-change notification is ignored outright: no
re-authentication is attempted and the state does not change. -/
theorem disconnect_suppression_is_permanent (s : WalletState)
    (accounts : List String) (verified : Bool) (events : List WalletEvent) :
    (walletStep s WalletEvent.disconnect).1
      = { account := "", manuallyDisconnected := true } ∧
    (s.manuallyDisconnected = true →
      walletStep s (WalletEvent.accountsChanged accounts verified) = (s, false) ∧
      (walletRun s events).manuallyDisconnected = true) := by
  refine ⟨rfl, fun hmd => ⟨?_, walletRun_keeps_disconnected_flag events s hmd⟩⟩
  simp [walletStep, hmd]

/-- Witness for the amended C3 at a concrete post-disconnect state. -/
theorem disconnect_suppression_is_permanent_witness :
    walletStep { account := "0xb", manuallyDisconnected := true }
        (WalletEvent.accountsChanged ["0xc"] true)
      = ({ account := "0xb", manuallyDisconnected := true }, false) ∧
    (walletRun { account := "0xb", manuallyDisconnected := true }
        [WalletEvent.connectOk "0xd"]).manuallyDisconnected = true :=
  (disconnect_suppression_is_permanent
    { account := "0xb", manuallyDisconnected := true }
    ["0xc"] true [WalletEvent.connectOk "0xd"]).2 rfl

/-- Claim C4 fails as stated: when the title is blank and no session exists,
the blank-title validation at NoteEditor.jsx line 104 runs before the
wallet check at line 109, so the submission fails with the title-validation
message rather than the unauthenticated message (no transaction is
dispatched either way). -/
theorem unauthenticated_submit_counterexample :
    (handleSubmit (Form.mk false "" "" true none false false false)
      (SubmitEnv.mk true true (Except.ok "0xh") (Except.ok (Receipt.mk 1 [] "0xh"))
        (Except.ok (Receipt.mk 1 [] "0xh")))).error
      = some "Please enter a title for your note" ∧
    (handleSubmit (Form.mk false "" "" true none false false false)
      (SubmitEnv.mk true true (Except.ok "0xh") (Except.ok (Receipt.mk 1 [] "0xh"))
        (Except.ok (Receipt.mk 1 [] "0xh")))).error
      ≠ some "Please connect your wallet first" ∧
    (handleSubmit (Form.mk false "" "" true none false false false)
      (SubmitEnv.mk true true (Except.ok "0xh") (Except.ok (Receipt.mk 1 [] "0xh"))
        (Except.ok (Receipt.mk 1 [] "0xh")))).dispatched = false := by
  decide

/-- Claim C4 amended: a create or update submitted without an authenticated
session (missing provider, account or contract address) fails immediately and
dispatches no transaction; the reported error is the unauthenticated message
whenever the title passes validation, while a blank title reports the
title-validation error instead (the validation check runs first). -/
theorem unauthenticated_submit_blocked (f : Form) (env : SubmitEnv)
    (hro : f.readOnly = false)
    (hsess : (f.hasProvider && f.hasAccount && f.hasContractAddress) = false) :
    (handleSubmit f env).dispatched = false ∧
    (handleSubmit f env).onSavedCall = none ∧
    (jsTrim f.title ≠ "" →
      (handleSubmit f env).error = some "Please connect your wallet first") ∧
    (jsTrim f.title = "" →
      (handleSubmit f env).error = some "Please enter a title for your note") := by
  by_cases ht : jsTrim f.title = ""
  · simp [handleSubmit, hro, ht]
  · simp [handleSubmit, hro, ht, hsess]

/-- Witness for the amended C4: a non-blank title with no connected wallet
yields the unauthenticated error. -/
theorem unauthenticated_submit_blocked_witness :
    (handleSubmit (Form.mk false "T" "body" true none false false false)
      (SubmitEnv.mk true true (Except.ok "0xh") (Except.ok (Receipt.mk 1 [] "0xh"))
        (Except.ok (Receipt.mk 1 [] "0xh")))).error
      = some "Please connect your wallet first" :=
  (unauthenticated_submit_blocked
    (Form.mk false "T" "body" true none false false false)
    (SubmitEnv.mk true true (Except.ok "0xh") (Except.ok (Receipt.mk 1 [] "0xh"))
      (Except.ok (Receipt.mk 1 [] "0xh")))
    rfl rfl).2.2.1 (by decide)

/-- Claim C10: a save submission whose title is empty or whitespace-only
sets the title-validation error and returns before any contract call: no
transaction is dispatched, the saved callback is not invoked, and the form
state is unchanged. -/
theorem blank_title_blocks_submit (f : Form) (env : SubmitEnv)
    (hro : f.readOnly = false) (ht : jsTrim f.title = "") :
    (handleSubmit f env).error = some "Please enter a title for your note" ∧
    (handleSubmit f env).dispatched = false ∧
    (handleSubmit f env).onSavedCall = none ∧
    (handleSubmit f env).formAfter = f := by
  simp [handleSubmit, hro, ht]

/-- Witness for C10 at a whitespace-only title. -/
theorem blank_title_blocks_submit_witness :
    (handleSubmit (Form.mk false "   " "body" true none true true true)
      (SubmitEnv.mk true true (Except.ok "0xh") (Except.ok (Receipt.mk 1 [] "0xh"))
        (Except.ok (Receipt.mk 1 [] "0xh")))).error
      = some "Please enter a title for your note" ∧
    (handleSubmit (Form.mk false "   " "body" true none true true true)
      (SubmitEnv.mk true true (Except.ok "0xh") (Except.ok (Receipt.mk 1 [] "0xh"))
        (Except.ok (Receipt.mk 1 [] "0xh")))).dispatched = false ∧
    (handleSubmit (Form.mk false "   " "body" true none true true true)
      (SubmitEnv.mk true true (Except.ok "0xh") (Except.ok (Receipt.mk 1 [] "0xh"))
        (Except.ok (Receipt.mk 1 [] "0xh")))).onSavedCall = none ∧
    (handleSubmit (Form.mk false "   " "body" true none true true true)
      (SubmitEnv.mk true true (Except.ok "0xh") (Except.ok (Receipt.mk 1 [] "0xh"))
        (Except.ok (Receipt.mk 1 [] "0xh")))).formAfter
      = Form.mk false "   " "body" true none true true true :=
  blank_title_blocks_submit
    (Form.mk false "   " "body" true none true true true)
    (SubmitEnv.mk true true (Except.ok "0xh") (Except.ok (Receipt.mk 1 [] "0xh"))
      (Except.ok (Receipt.mk 1 [] "0xh")))
    rfl (by decide)

/-- Every `handleSubmit` outcome either never invoked the saved callback or
reported no error: the callback fires only on the confirmed-success branch. -/
theorem handleSubmit_saved_or_error (f : Form) (env : SubmitEnv) :
    (handleSubmit f env).onSavedCall = none ∨ (handleSubmit f env).error = none := by
  unfold handleSubmit
  repeat' split
  all_goals first | exact Or.inl rfl | exact Or.inr rfl

/-- Claim C8: a failed save attempt (any path that reports an error) never
invokes the saved callback, so the record view state is exactly what it was
before the attempt: a failed save stays in Creating or Editing with the same
selection and never transitions to Viewing. -/
theorem failed_save_preserves_view_state (f : Form) (env : SubmitEnv)
    (s : NoteState) (hfail : (handleSubmit f env).error.isSome = true) :
    (handleSubmit f env).onSavedCall = none ∧
    appAfterSubmit (handleSubmit f env) s = s ∧
    viewStateOf (appAfterSubmit (handleSubmit f env) s) = viewStateOf s := by
  rcases handleSubmit_saved_or_error f env with hn | he
  · exact ⟨hn, by simp [appAfterSubmit, hn], by simp [appAfterSubmit, hn]⟩
  · rw [he] at hfail
    exact Bool.noConfusion hfail

/-- Witness for C8: a dispatch rejected by the wallet leaves the Creating
state untouched. -/
theorem failed_save_preserves_view_state_witness :
    (handleSubmit (Form.mk false "T" "body" true none true true true)
      (SubmitEnv.mk true true
        (Except.error (JsError.mk (some "user rejected transaction") none none none))
        (Except.ok (Receipt.mk 1 [] "0xh")) (Except.ok (Receipt.mk 1 [] "0xh")))).onSavedCall
      = none ∧
    appAfterSubmit
      (handleSubmit (Form.mk false "T" "body" true none true true true)
        (SubmitEnv.mk true true
          (Except.error (JsError.mk (some "user rejected transaction") none none none))
          (Except.ok (Receipt.mk 1 [] "0xh")) (Except.ok (Receipt.mk 1 [] "0xh"))))
      (NoteState.mk none true)
      = NoteState.mk none true ∧
    viewStateOf
      (appAfterSubmit
        (handleSubmit (Form.mk false "T" "body" true none true true true)
          (SubmitEnv.mk true true
            (Except.error (JsError.mk (some "user rejected transaction") none none none))
            (Except.ok (Receipt.mk 1 [] "0xh")) (Except.ok (Receipt.mk 1 [] "0xh"))))
        (NoteState.mk none true))
      = viewStateOf (NoteState.mk none true) :=
  failed_save_preserves_view_state
    (Form.mk false "T" "body" true none true true true)
    (SubmitEnv.mk true true
      (Except.error (JsError.mk (some "user rejected transaction") none none none))
      (Except.ok (Receipt.mk 1 [] "0xh")) (Except.ok (Receipt.mk 1 [] "0xh")))
    (NoteState.mk none true) (by decide)

/-- Claim C5 fails as stated at a recovered id of 0: the receipt carries a
NoteCreated event whose id argument is 0, the id is recovered and passed to
the saved callback, yet `noteId || prev.selectedNoteId` treats 0 as falsy,
so the Creating state falls back to Browsing instead of Viewing(0). -/
theorem created_id_zero_counterexample :
    (handleSubmit (Form.mk false "T" "body" true none true true true)
      (SubmitEnv.mk true true (Except.ok "0xh")
        (Except.ok (Receipt.mk 1 [ReceiptEvent.mk (some "NoteCreated") none (some 0)] "0xh"))
        (Except.ok (Receipt.mk 1 [ReceiptEvent.mk (some "NoteCreated") none (some 0)] "0xh")))).onSavedCall
      = some (some 0) ∧
    viewStateOf (handleNoteSaved (some 0) (NoteState.mk none true)) = ViewState.browsing ∧
    ViewState.browsing ≠ ViewState.viewing 0 := by
  decide

/-- Claim C5 amended: a successful save from the Creating state transitions
to Viewing(newId) when a nonzero id was recovered from the confirmation; when
no id was recovered, or the recovered id is 0 (falsy in the
`noteId || prev.selectedNoteId` update), the save still succeeds with no
error and the state falls back to Browsing. -/
theorem create_save_transition (f : Form) (env : SubmitEnv) (s : NoteState)
    (hsel : s.selectedNoteId = none) (_hed : s.isEditing = true)
    (savedId : Option Int)
    (hcall : (handleSubmit f env).onSavedCall = some savedId) :
    (handleSubmit f env).error = none ∧
    (∀ n, savedId = some n → n ≠ 0 →
      viewStateOf (handleNoteSaved savedId s) = ViewState.viewing n) ∧
    ((savedId = none ∨ savedId = some 0) →
      viewStateOf (handleNoteSaved savedId s) = ViewState.browsing) := by
  refine ⟨?_, ?_, ?_⟩
  · rcases handleSubmit_saved_or_error f env with hn | he
    · rw [hn] at hcall
      exact Option.noConfusion hcall
    · exact he
  · intro n hn hn0
    subst hn
    simp [handleNoteSaved, viewStateOf, hn0]
  · intro hz
    rcases hz with hz | hz <;> subst hz <;> simp [handleNoteSaved, viewStateOf, hsel]

/-- Witness for the amended C5: a recovered id of 3 transitions Creating to
Viewing(3) with no error. -/
theorem create_save_transition_witness :
    (handleSubmit (Form.mk false "T" "body" true none true true true)
      (SubmitEnv.mk true true (Except.ok "0xh")
        (Except.ok (Receipt.mk 1 [ReceiptEvent.mk (some "NoteCreated") none (some 3)] "0xh"))
        (Except.ok (Receipt.mk 1 [ReceiptEvent.mk (some "NoteCreated") none (some 3)] "0xh")))).error
      = none ∧
    viewStateOf (handleNoteSaved (some 3) (NoteState.mk none true)) = ViewState.viewing 3 :=
  have h := create_save_transition
    (Form.mk false "T" "body" true none true true true)
    (SubmitEnv.mk true true (Except.ok "0xh")
      (Except.ok (Receipt.mk 1 [ReceiptEvent.mk (some "NoteCreated") none (some 3)] "0xh"))
      (Except.ok (Receipt.mk 1 [ReceiptEvent.mk (some "NoteCreated") none (some 3)] "0xh")))
    (NoteState.mk none true) rfl rfl (some 3) (by decide)
  ⟨h.1, h.2.1 3 rfl (by decide)⟩

/-- An error whose nested provider message is falsy and whose own message
matches none of the inner-catch patterns is rethrown unchanged. -/
theorem innerCatch_ident (e : JsError) (h1 : nestedTruthy e = false)
    (h2 : passesInner e = true) : innerCatch e = e := by
  obtain ⟨msg, emsg, rst, th⟩ := e
  cases emsg with
  | none =>
    cases msg with
    | none => rfl
    | some m =>
      simp only [passesInner, Bool.and_eq_true, Bool.not_eq_true'] at h2
      obtain ⟨⟨ha, hb⟩, hc⟩ := h2
      by_cases hm : m = ""
      · simp [innerCatch, innerCatchMsg, hm]
      · simp [innerCatch, innerCatchMsg, hm, ha, hb, hc]
  | some em =>
    have hem : em = "" := by simpa [nestedTruthy] using h1
    subst hem
    cases msg with
    | none => rfl
    | some m =>
      simp only [passesInner, Bool.and_eq_true, Bool.not_eq_true'] at h2
      obtain ⟨⟨ha, hb⟩, hc⟩ := h2
      by_cases hm : m = ""
      · simp [innerCatch, innerCatchMsg, hm]
      · simp [innerCatch, innerCatchMsg, hm, ha, hb, hc]

/-- An error with a falsy nested provider message but a user-rejection
message is rewrapped by the inner catch into the rejection error, with no
receipt attached. -/
theorem innerCatch_rejects (e : JsError) (h1 : nestedTruthy e = false)
    (h2 : rejectionSignal e = true) :
    innerCatch e
      = JsError.mk (some "Transaction was rejected in your wallet.") none none none := by
  obtain ⟨msg, emsg, rst, th⟩ := e
  cases msg with
  | none => exact Bool.noConfusion h2
  | some m =>
    simp only [rejectionSignal] at h2
    have hm : m ≠ "" := by
      intro he
      subst he
      exact absurd h2 (by decide)
    cases emsg with
    | none => simp [innerCatch, innerCatchMsg, hm, h2]
    | some em =>
      have hem : em = "" := by simpa [nestedTruthy] using h1
      subst hem
      simp [innerCatch, innerCatchMsg, hm, h2]

/-- The outer catch classifies any error with receipt status 0 by the
zero-status message, regardless of its message text. -/
theorem outerCatch_zero (e : JsError) (h : e.receiptStatus = some 0) :
    outerCatch e = "Failed to save note. " ++ zeroStatusCore e.txHash ++ fixSuffix := by
  simp [outerCatch, h]

/-- The outer catch classifies an execution-reverted message (with no
zero-status receipt) by the reverted message. -/
theorem outerCatch_reverted (e : JsError) (m : String) (h0 : e.receiptStatus ≠ some 0)
    (hm : e.message = some m) (hrev : jsIncludes m "execution reverted" = true) :
    outerCatch e
      = "Failed to save note. " ++ "Transaction was rejected by the smart contract. There may be an issue with the encryption contract." ++ fixSuffix := by
  have hne : m ≠ "" := by
    intro he
    subst he
    exact absurd hrev (by decide)
  simp [outerCatch, h0, hm, hne, hrev]

/-- The inner catch rewraps a truthy nested provider message into a fresh
error carrying only that message. -/
theorem innerCatch_nested (e : JsError) (m : String) (hm : e.errorMessage = some m)
    (hne : m ≠ "") : innerCatch e = JsError.mk (some m) none none none := by
  obtain ⟨msg, emsg, rst, th⟩ := e
  cases hm
  simp [innerCatch, hne]

set_option maxRecDepth 8192 in
/-- Claim C7 fails as stated: when an error carries both the user-rejection
signal in its own message and a nested provider error message containing
"execution reverted", the nested message is unwrapped first and wins the
classification, so the outcome is classified as reverted, not as a user
rejection. -/
theorem rejection_precedence_counterexample :
    rejectionSignal (JsError.mk (some "user rejected transaction")
      (some "execution reverted: bad") none none) = true ∧
    classifySave (JsError.mk (some "user rejected transaction")
      (some "execution reverted: bad") none none)
      = "Failed to save note. " ++ "Transaction was rejected by the smart contract. There may be an issue with the encryption contract." ++ fixSuffix ∧
    classifySave (JsError.mk (some "user rejected transaction")
      (some "execution reverted: bad") none none)
      ≠ "Failed to save note. " ++ "Transaction was rejected in your wallet." ++ fixSuffix := by
  decide

set_option maxRecDepth 8192 in
/-- Claim C7 amended: exactly one classification message is produced per
failed outcome (the classifier is a total function), and when several
signals are present precedence is: a truthy nested provider error message is
unwrapped first and reclassified from its own text; otherwise user rejection
wins (the rejection rewrap drops the receipt, so it also beats a zero
receipt status); otherwise a zero receipt status beats the message
patterns; otherwise the message patterns apply. -/
theorem failure_classification_precedence (e : JsError) :
    (∀ m, e.errorMessage = some m → m ≠ "" →
      classifySave e = outerCatch (JsError.mk (some m) none none none)) ∧
    (nestedTruthy e = false → rejectionSignal e = true →
      classifySave e
        = "Failed to save note. " ++ "Transaction was rejected in your wallet." ++ fixSuffix) ∧
    (nestedTruthy e = false → passesInner e = true → e.receiptStatus = some 0 →
      classifySave e = "Failed to save note. " ++ zeroStatusCore e.txHash ++ fixSuffix) ∧
    (nestedTruthy e = false → passesInner e = true → e.receiptStatus ≠ some 0 →
      ∀ m, e.message = some m → jsIncludes m "execution reverted" = true →
        classifySave e
          = "Failed to save note. " ++ "Transaction was rejected by the smart contract. There may be an issue with the encryption contract." ++ fixSuffix) := by
  refine ⟨?_, ?_, ?_, ?_⟩
  · intro m hm hne
    unfold classifySave
    rw [innerCatch_nested e m hm hne]
  · intro h1 h2
    unfold classifySave
    rw [innerCatch_rejects e h1 h2]
    decide
  · intro h1 h2 h0
    unfold classifySave
    rw [innerCatch_ident e h1 h2]
    exact outerCatch_zero e h0
  · intro h1 h2 h0 m hm hrev
    unfold classifySave
    rw [innerCatch_ident e h1 h2]
    exact outerCatch_reverted e m h0 hm hrev

/-- Witness for the amended C7, one concrete error per precedence clause. -/
theorem failure_classification_precedence_witness :
    classifySave (JsError.mk (some "whatever") (some "insufficient funds for gas") none none)
      = outerCatch (JsError.mk (some "insufficient funds for gas") none none none) ∧
    classifySave (JsError.mk (some "user rejected transaction") none (some 0) none)
      = "Failed to save note. " ++ "Transaction was rejected in your wallet." ++ fixSuffix ∧
    classifySave (JsError.mk (some "transaction failed") none (some 0) (some "0xh"))
      = "Failed to save note. " ++ zeroStatusCore (some "0xh") ++ fixSuffix ∧
    classifySave (JsError.mk (some "execution reverted: x") none (some 1) none)
      = "Failed to save note. " ++ "Transaction was rejected by the smart contract. There may be an issue with the encryption contract." ++ fixSuffix := by
  refine ⟨?_, ?_, ?_, ?_⟩
  · exact (failure_classification_precedence
      (JsError.mk (some "whatever") (some "insufficient funds for gas") none none)).1
      "insufficient funds for gas" rfl (by decide)
  · exact (failure_classification_precedence
      (JsError.mk (some "user rejected transaction") none (some 0) none)).2.1
      rfl (by decide)
  · exact (failure_classification_precedence
      (JsError.mk (some "transaction failed") none (some 0) (some "0xh"))).2.2.1
      rfl (by decide) rfl
  · exact (failure_classification_precedence
      (JsError.mk (some "execution reverted: x") none (some 1) none)).2.2.2
      rfl (by decide) (by decide) "execution reverted: x" rfl (by decide)

/-- Claim C6 fails as stated: two fetched notes with equal timestamps and
ascending ids stay in fetch order after the sort (the comparator only
compares timestamps and the sort is stable), so the cached list is not
tie-broken by id descending. -/
theorem fetch_order_tiebreak_counterexample :
    ¬ List.Pairwise claimTieOrder
        (fetchNotesSorted (FetchedLists.mk [1, 2] ["a", "b"] [5, 5])) := by
  intro h
  have he : fetchNotesSorted (FetchedLists.mk [1, 2] ["a", "b"] [5, 5])
      = [Note.mk 1 "a" 5, Note.mk 2 "b" 5] := by decide
  rw [he] at h
  have hrel := (List.pairwise_cons.mp h).1 (Note.mk 2 "b" 5) (by simp)
  rcases hrel with h1 | ⟨h2, h3⟩
  · exact absurd h1 (by decide)
  · exact absurd h3 (by decide)

/-- Claim C6 amended: after every fetch the cached list is sorted in
descending order by timestamp; notes with equal timestamps keep the relative
order in which the remote list returned them (the sort is stable), rather
than being reordered by id. The sorted list is a permutation of the
formatted fetch result. -/
theorem fetch_sorted_desc_stable (d : FetchedLists) :
    List.Sorted noteDescTs (fetchNotesSorted d) ∧
    (∀ a b : Note, List.Sublist [a, b] (formatNotes d) → a.timestamp = b.timestamp →
      List.Sublist [a, b] (fetchNotesSorted d)) ∧
    (fetchNotesSorted d).Perm (formatNotes d) := by
  refine ⟨List.sorted_insertionSort noteDescTs (formatNotes d), ?_,
    List.perm_insertionSort noteDescTs (formatNotes d)⟩
  intro a b hsub heq
  exact List.pair_sublist_insertionSort (show noteDescTs a b from le_of_eq heq.symm) hsub

/-- Witness for the amended C6: an equal-timestamp pair keeps its fetched
order in the sorted list. -/
theorem fetch_sorted_desc_stable_witness :
    List.Sorted noteDescTs (fetchNotesSorted (FetchedLists.mk [1, 2] ["a", "b"] [5, 5])) ∧
    List.Sublist [Note.mk 1 "a" 5, Note.mk 2 "b" 5]
      (fetchNotesSorted (FetchedLists.mk [1, 2] ["a", "b"] [5, 5])) := by
  have h := fetch_sorted_desc_stable (FetchedLists.mk [1, 2] ["a", "b"] [5, 5])
  refine ⟨h.1, ?_⟩
  have hf : formatNotes (FetchedLists.mk [1, 2] ["a", "b"] [5, 5])
      = [Note.mk 1 "a" 5, Note.mk 2 "b" 5] := by decide
  exact h.2.1 (Note.mk 1 "a" 5) (Note.mk 2 "b" 5) (by rw [hf]) rfl

/-- Claim C9: once the signer and contract construction succeed, the
encryption capability check and the count read each run inside their own
try/catch and fill their own result slot from their own call outcome alone;
in particular a failure of the trivial view call cannot prevent them from
running or change what they report. -/
theorem diagnostics_checks_independent (env : DiagEnv)
    (hc : env.connectOk = true) :
    (runDiagnostics env).encryption
      = (match env.encryptCall with
         | Except.ok _ => CheckResult.mk true none
         | Except.error m => CheckResult.mk false (some ("Failed to encrypt test data: " ++ m))) ∧
    (runDiagnostics env).noteCreation
      = (match env.countCall with
         | Except.ok _ => CheckResult.mk true none
         | Except.error m => CheckResult.mk false (some ("Failed to check note count: " ++ m))) := by
  rcases env with ⟨av, co, ce, vc, ec, cc⟩
  subst hc
  constructor
  · cases ec <;> rfl
  · cases cc <;> rfl

/-- Witness for C9: the view call fails while the capability check and the
count read still run and pass. -/
theorem diagnostics_checks_independent_witness :
    (runDiagnostics (DiagEnv.mk true true "" (Except.error "view call failed")
        (Except.ok "encrypted") (Except.ok ()))).encryption = CheckResult.mk true none ∧
    (runDiagnostics (DiagEnv.mk true true "" (Except.error "view call failed")
        (Except.ok "encrypted") (Except.ok ()))).noteCreation = CheckResult.mk true none :=
  diagnostics_checks_independent
    (DiagEnv.mk true true "" (Except.error "view call failed")
      (Except.ok "encrypted") (Except.ok ())) rfl

end FluentNotes
